import Mathlib

/-!
# Verification of the celltypist prediction/training pipeline

Shallow embedding of `src/celltypist/classifier.py` and `src/celltypist/train.py`.
Cells × genes expression matrices are modelled as `List (List ℚ)` (rows = cells),
gene names as `List String`.  numpy fancy indexing `xs[idx]` is modelled by `sel`,
column selection `m[:, idx]` by `colSelect`.  Exceptions raised by the Python code
(and by the pandas/numpy calls it makes) are modelled by the `Err` type.
-/

namespace Celltypist

/-- A Python exception: `ValueError(msg)` raised explicitly by the code or by a
pandas/numpy call, or `NameError` for an unresolved name. -/
inductive Err where
  | valueError (msg : String)
  | nameError (missing : String)
  deriving Repr, DecidableEq

/-- numpy fancy indexing `xs[idx]` (all indices produced by the code are in range;
`d` is returned for an out-of-range index). -/
def sel {α : Type} (xs : List α) (d : α) (idx : List Nat) : List α :=
  idx.map (fun i => xs.getD i d)

/-- numpy column selection `m[:, idx]` on a cells × genes matrix. -/
def colSelect (m : List (List ℚ)) (idx : List Nat) : List (List ℚ) :=
  m.map (fun row => sel row 0 idx)

/-- numpy broadcast subtraction `m - v` of a per-column vector from each row. -/
def matSub (m : List (List ℚ)) (v : List ℚ) : List (List ℚ) :=
  m.map (fun row => List.zipWith (fun a b => a - b) row v)

/-- numpy broadcast division `m / v` of each row by a per-column vector. -/
def matDiv (m : List (List ℚ)) (v : List ℚ) : List (List ℚ) :=
  m.map (fun row => List.zipWith (fun a b => a / b) row v)

/-- numpy masked assignment `m[m > c] = c`: clip every entry to the upper bound `c`
(no lower clip). -/
def matClipHi (m : List (List ℚ)) (c : ℚ) : List (List ℚ) :=
  m.map (fun row => row.map (fun x => if c < x then c else x))

/-- Embeds `np.where(np.isin(genes, features))[0]`: positions (ascending) of the input genes
that occur in the model's feature list (classifier.py:244-246). -/
def isinIdx (genes features : List String) : List Nat :=
  (List.range genes.length).filter (fun i => decide (genes.getD i "" ∈ features))

/-- Position of gene `g` in the model's feature list: the value pandas produces for
`pd.DataFrame(features).reset_index().set_index('features').loc[g, 'index']`
(classifier.py:249).  Model feature lists hold distinct gene names (spec data model),
so the lookup is the unique position of `g` in `features`. -/
def featurePos (features : List String) (g : String) : Nat :=
  features.indexOf g

/-- Embeds `lr_idx` (classifier.py:249): for each retained input gene, its position in the
model's feature list. -/
def lrIdx (features genes : List String) : List Nat :=
  genes.map (featurePos features)

/-- A trained `SGDClassifier` as stored inside a celltypist model: per-class weight
matrix `coef_` (classes × features), `intercept_`, `classes_`, the attached gene
list `features`, and `n_features_in_`. -/
structure SGDClassifierModel where
  features : List String
  coef : List (List ℚ)
  intercept : List ℚ
  classes : List String
  nFeaturesIn : Nat
  deriving Repr, DecidableEq

/-- A trained `StandardScaler`: per-feature `mean_` and `scale_`. -/
structure StandardScalerModel where
  mean : List ℚ
  scale : List ℚ
  deriving Repr, DecidableEq

/-- Embeds `celltypist.models.Model`: bundle of the classifier and the scaler. -/
structure Model where
  classifier : SGDClassifierModel
  scaler : StandardScalerModel
  deriving Repr, DecidableEq

/-- The mutable state of a `Classifier` object: the loaded expression matrix
(`indata`, cells × genes, log1p-normalized), its gene names (`indata_genes`) and the
loaded model. -/
structure ClassifierState where
  indata : List (List ℚ)
  indataGenes : List String
  model : Model
  deriving Repr, DecidableEq

/-- Embeds `Classifier.celltype` (classifier.py:243-260): feature alignment, scaling and the
in-place model mutation.  Steps, in source order:
`k_x_idx = np.where(np.isin(indata_genes, features))[0]`;
`indata = indata[:, k_x_idx]`; `indata_genes = indata_genes[k_x_idx]`;
`lr_idx` = positions of the retained genes in the model feature list;
`means_ = scaler.mean_[lr_idx]`; `sds_ = scaler.scale_[lr_idx]`;
`indata = indata - means_`; `indata = indata / sds_`; `indata[indata > 10] = 10`;
then the model's classifier is overwritten in place:
`n_features_in_ = lr_idx.size`, `features = features[lr_idx]`,
`coef_ = coef_[:, lr_idx]`.  The body raises no exception.  The final prediction
step (`model.predict_labels_and_prob`, in `models.py`, not under `src/`) consumes
the scaled matrix and touches none of these fields. -/
def Classifier.celltype (s : ClassifierState) : ClassifierState :=
  let kxIdx := isinIdx s.indataGenes s.model.classifier.features
  let indata1 := colSelect s.indata kxIdx
  let genes1 := sel s.indataGenes "" kxIdx
  let lridx := lrIdx s.model.classifier.features genes1
  let means := sel s.model.scaler.mean 0 lridx
  let sds := sel s.model.scaler.scale 0 lridx
  let indata2 := matClipHi (matDiv (matSub indata1 means) sds) 10
  { indata := indata2
    indataGenes := genes1
    model :=
      { scaler := s.model.scaler
        classifier :=
          { features := sel s.model.classifier.features "" lridx
            coef := colSelect s.model.classifier.coef lridx
            intercept := s.model.classifier.intercept
            classes := s.model.classifier.classes
            nFeaturesIn := lridx.length } } }

/-- A loaded model with two trained features of which the input data provides only
`g1`: feature alignment keeps a strict subset of the model features. -/
def mutationDemoState : ClassifierState :=
  { indata := [[5]]
    indataGenes := ["g1"]
    model :=
      { classifier :=
          { features := ["g1", "g2"], coef := [[1, 2]], intercept := [0]
            classes := ["A"], nFeaturesIn := 2 }
        scaler := { mean := [1, 2], scale := [1, 1] } } }

/-- A loaded model and an input dataset whose gene lists are disjoint: the
intersection used for feature alignment is empty. -/
def emptyIntersectionState : ClassifierState :=
  { indata := [[3]]
    indataGenes := ["h1"]
    model :=
      { classifier :=
          { features := ["g1"], coef := [[1]], intercept := [0]
            classes := ["A"], nFeaturesIn := 1 }
        scaler := { mean := [0], scale := [1] } } }

/-- A loaded model whose trained scale vector contains a non-positive entry. -/
def negativeScaleState : ClassifierState :=
  { indata := [[5]]
    indataGenes := ["g1"]
    model :=
      { classifier :=
          { features := ["g1"], coef := [[1]], intercept := [0]
            classes := ["A"], nFeaturesIn := 1 }
        scaler := { mean := [0], scale := [-1] } } }

/-! ### Majority voting (classifier.py:318-347) -/

/-- A pandas DataFrame: a row index of cell names and named, index-aligned
columns. -/
structure DataFrame (β : Type) where
  index : List String
  cols : List (String × List β)
  deriving DecidableEq

/-- Embeds `AnnotationResult` (classifier.py:15-43): the predicted-labels DataFrame, the
probability table, the cell count (fixed at construction from the label row count)
and the input AnnData object, opaque here (type parameter `α`). -/
structure AnnotationResult (α : Type) where
  predictedLabels : DataFrame String
  probabilityTable : DataFrame ℚ
  cellCount : Nat
  adata : α
  deriving DecidableEq

/-- The **predicted_labels** column that `majority_vote` reads
(`predictions.predicted_labels['predicted_labels']`). -/
def AnnotationResult.labelsCol {α : Type} (predictions : AnnotationResult α) :
    List String :=
  (predictions.predictedLabels.cols.lookup "predicted_labels").getD []

/-- Ascending sorted distinct values: the row index `pd.crosstab` builds from the
label Series (crosstab sorts its grouping index). -/
def sortedUnique (xs : List String) : List String :=
  List.insertionSort (fun a b => a ≤ b) xs.dedup

/-- One cell of the contingency table `pd.crosstab(labels, over_clustering)`: the
number of positions carrying predicted label `l` and cluster `c`. -/
def countLC (labels clusters : List String) (l c : String) : Nat :=
  ((labels.zip clusters).filter (fun p => decide (p.1 = l ∧ p.2 = c))).length

/-- Embeds `Series.idxmax`: the first entry of `rows` attaining the maximal value of `f`
(pandas documents that the first occurrence of the maximum is returned).  pandas
raises on an empty series; crosstab columns are never empty, `""` is returned
here. -/
def idxmaxFirst (rows : List String) (f : String → Nat) : String :=
  match rows with
  | [] => ""
  | r :: rs => rs.foldl (fun best x => if f best < f x then x else best) r

/-- Embeds `votes.idxmax()` at cluster `c`: the first label of the sorted crosstab index
attaining the maximal count within cluster `c`. -/
def clusterWinner (labels clusters : List String) (c : String) : String :=
  idxmaxFirst (sortedUnique labels) (fun l => countLC labels clusters l c)

/-- Embeds `Classifier.majority_vote` (classifier.py:318-347), with the partition given
as a list/array.  A partition whose length differs from the label count makes the
`pd.crosstab(labels, over_clustering)` call raise `ValueError` (a DataFrame cannot
be built from columns of different lengths).  Otherwise
`majority = votes.idxmax()[over_clustering]` is reindexed to the prediction index,
its columns renamed to `over_clustering` / `majority_voting`, joined onto
`predictions.predicted_labels`, and the same `AnnotationResult` is returned with
only that attribute replaced. -/
def Classifier.majority_vote {α : Type} (predictions : AnnotationResult α)
    (over_clustering : List String) : Except Err (AnnotationResult α) :=
  let labels := predictions.labelsCol
  if labels.length ≠ over_clustering.length then
    .error (.valueError "Length of values does not match length of index")
  else
    let majority := over_clustering.map (clusterWinner labels over_clustering)
    .ok { predictions with
          predictedLabels :=
            { index := predictions.predictedLabels.index
              cols := predictions.predictedLabels.cols ++
                [("over_clustering", over_clustering),
                 ("majority_voting", majority)] } }

/-! ### Feature selection (train.py:166-182) -/

/-- Embeds `np.abs` of a weight row. -/
def absRow (row : List ℚ) : List ℚ := row.map (fun x => |x|)

/-- The ranking relation behind the per-class top-K choice: `i` ranks at least as
high as `j` when its value is larger, or equal with a lower (or equal) index. -/
def rankGE (row : List ℚ) (i j : Nat) : Prop :=
  row.getD j 0 < row.getD i 0 ∨ (row.getD i 0 = row.getD j 0 ∧ i ≤ j)

instance (row : List ℚ) : DecidableRel (rankGE row) := fun i j => by
  unfold rankGE; infer_instance

instance (row : List ℚ) : IsTotal Nat (rankGE row) := by
  constructor
  intro i j
  rcases lt_trichotomy (row.getD i 0) (row.getD j 0) with h | h | h
  · exact Or.inr (Or.inl h)
  · rcases Nat.le_total i j with hij | hij
    · exact Or.inl (Or.inr ⟨h, hij⟩)
    · exact Or.inr (Or.inr ⟨h.symm, hij⟩)
  · exact Or.inl (Or.inl h)

instance (row : List ℚ) : IsTrans Nat (rankGE row) := by
  constructor
  intro i j k hij hjk
  rcases hij with h1 | ⟨h1, hle1⟩
  · rcases hjk with h2 | ⟨h2, hle2⟩
    · exact Or.inl (h2.trans h1)
    · exact Or.inl (lt_of_eq_of_lt h2.symm h1)
  · rcases hjk with h2 | ⟨h2, hle2⟩
    · exact Or.inl (lt_of_lt_of_eq h2 h1.symm)
    · exact Or.inr ⟨h1.trans h2, hle1.trans hle2⟩

/-- Descending argsort of a row (ties toward the lower index).
`np.argpartition(row, -k)[-k:]` places *some* k indices of maximal value last,
with unspecified tie behaviour; since `np.unique` is applied right after, only the
resulting index set matters, which this deterministic order realizes. -/
def argsortDesc (row : List ℚ) : List Nat :=
  List.insertionSort (rankGE row) (List.range row.length)

/-- The indices of the `k` largest entries of `row`. -/
def topKIdx (row : List ℚ) (k : Nat) : List Nat := (argsortDesc row).take k

/-- Embeds `np.unique`: ascending sorted distinct values. -/
def npUnique (xs : List Nat) : List Nat :=
  List.insertionSort (fun a b => a ≤ b) xs.dedup

/-- Embeds train.py:170-171:
`np.unique(np.argpartition(np.abs(classifier.coef_), -top_genes, axis=1)[:, -top_genes:])`
— per class, the indices of the `top_genes` largest absolute weights; then the
sorted deduplicated union over classes. -/
def selectedGeneIndex (coef : List (List ℚ)) (k : Nat) : List Nat :=
  npUnique ((coef.map (fun row => topKIdx (absRow row) k)).flatten)

/-- A fitted `StandardScaler` as mutated in place by train.py:179-182. -/
structure TrainScaler where
  mean : List ℚ
  var : List ℚ
  scale : List ℚ
  nFeaturesIn : Nat
  deriving DecidableEq

/-- The feature-selection stage of `train` (train.py:166-182): the guard
`len(genes) <= top_genes` raises `ValueError`; otherwise `gene_index` is computed,
genes and matrix columns are subsetted, the classifier is refit by a second
`_SGDClassifier` call on the subsetted matrix (returned here), and the scaler's
`mean_`/`var_`/`scale_` are subsetted in place with `n_features_in_` updated. -/
def featureSelectStage (coef : List (List ℚ)) (genes : List String)
    (indata : List (List ℚ)) (scaler : TrainScaler) (topGenes : Nat) :
    Except Err (List String × List (List ℚ) × TrainScaler × List Nat) :=
  if genes.length ≤ topGenes then
    .error (.valueError
      "The number of genes is fewer than the top_genes. Unable to perform feature selection")
  else
    let geneIndex := selectedGeneIndex coef topGenes
    .ok (sel genes "" geneIndex, colSelect indata geneIndex,
      { mean := sel scaler.mean 0 geneIndex
        var := sel scaler.var 0 geneIndex
        scale := sel scaler.scale 0 geneIndex
        nFeaturesIn := geneIndex.length }, geneIndex)

/-- Modelled from the spec, for refinement comparison only (the code is the
authority): §4.6 SelectFeatures — "rank features by the mean absolute weight
magnitude across classes, keep the top-K".  Mean of `|coef|` over classes per
feature, then the indices of the K largest means. -/
def specMeanAbsTopK (coef : List (List ℚ)) (nfeat k : Nat) : List Nat :=
  topKIdx
    ((List.range nfeat).map
      (fun j => (coef.map (fun row => |row.getD j 0|)).sum / (coef.length : ℚ))) k

/-! ### Mini-batch fitting (train.py:95-117) -/

/-- Embeds `np.arange(0, stop, step)` for `step > 0`. -/
def arange (stop step : Nat) : List Nat :=
  (List.range ((stop + step - 1) / step)).map (fun i => i * step)

/-- Embeds train.py:110-111: batch start offsets
`starts = np.arange(0, no_cells, batch_size)`, then
`starts = starts[:min([batch_number, len(starts)])]`. -/
def miniBatchStarts (noCells batchSize batchNumber : Nat) : List Nat :=
  let starts := arange noCells batchSize
  starts.take (min batchNumber starts.length)

/-- The observable fitting state of the `SGDClassifier` object at the moment
`_SGDClassifier` returns or its exception propagates: whether the full-batch `fit`
ran and how many `partial_fit` steps the object received. -/
structure FitOutcome where
  fullFitDone : Bool
  pfitSteps : Nat
  deriving DecidableEq

/-- Embeds `_SGDClassifier` (train.py:95-117).  Full-batch mode calls `fit` once.
Mini-batch mode: if `no_cells <= batch_size`, raise
`ValueError` ("🛑 Number of cells is fewer than the batch size ...") — the spec's
`InsufficientDataError` — before the loop, so before any `partial_fit`; otherwise
the batch starts are computed and the epoch loop entered, whose first statement
evaluates `shuffle(indata, labels)`.  `shuffle` is neither imported nor defined
anywhere in train.py, so the first epoch raises `NameError` before any
`partial_fit` can run.  (With `epochs = 0` the loop body never runs and the
untouched classifier is returned.) -/
def SGDClassifierFit (noCells : Nat) (miniBatch : Bool)
    (batchNumber batchSize epochs : Nat) : Option Err × FitOutcome :=
  if miniBatch = false then (none, { fullFitDone := true, pfitSteps := 0 })
  else if noCells ≤ batchSize then
    (some (.valueError "Number of cells is fewer than the batch size"),
      { fullFitDone := false, pfitSteps := 0 })
  else if 1 ≤ epochs then
    (some (.nameError "shuffle"), { fullFitDone := false, pfitSteps := 0 })
  else (none, { fullFitDone := false, pfitSteps := 0 })

/-! ### Loading-time normalization check (classifier.py:222-223, train.py:144-145) -/

/-- numpy `expm1`. -/
noncomputable def npExpm1 (x : ℝ) : ℝ := Real.exp x - 1

/-- Embeds `np.expm1(row).sum()`. -/
noncomputable def rowExpm1Sum (row : List ℝ) : ℝ := (row.map npExpm1).sum

/-- The loading-time integrity check: the matrix is rejected (with
`ValueError: Invalid expression matrix, ...`) iff
`np.abs(np.expm1(indata[0]).sum() - 10000) > 1` — only row `0` is consulted. -/
def normalizationCheckRejects (indata : List (List ℝ)) : Prop :=
  1 < |rowExpm1Sum (indata.headD []) - 10000|

/-! ### Concrete inputs used by the closed theorems and witnesses -/

/-- Four cells predicted `A,A,B,B`, all placed in one cluster `c0` by the
partition used below: a perfectly tied cluster. -/
def tiedVoteResult : AnnotationResult Unit :=
  { predictedLabels :=
      { index := ["cell1", "cell2", "cell3", "cell4"]
        cols := [("predicted_labels", ["A", "A", "B", "B"])] }
    probabilityTable := { index := ["cell1", "cell2", "cell3", "cell4"], cols := [] }
    cellCount := 4
    adata := () }

/-- Four cells predicted `A,A,A,B`, for the majority-rule example. -/
def majorityVoteResult : AnnotationResult Unit :=
  { predictedLabels :=
      { index := ["cell1", "cell2", "cell3", "cell4"]
        cols := [("predicted_labels", ["A", "A", "A", "B"])] }
    probabilityTable := { index := ["cell1", "cell2", "cell3", "cell4"], cols := [] }
    cellCount := 4
    adata := () }

/-- A 2-class × 3-gene weight matrix on which per-class top-1 selection and
mean-absolute-weight top-1 selection disagree. -/
def fsDemoCoef : List (List ℚ) := [[3, 2, 0], [0, 2, 3]]

/-- Gene names for `fsDemoCoef`. -/
def fsDemoGenes : List String := ["g0", "g1", "g2"]

/-- A 2-cell × 3-gene training matrix for the feature-selection demonstration. -/
def fsDemoIndata : List (List ℚ) := [[1, 2, 3], [4, 5, 6]]

/-- A fitted scaler over the three demo genes. -/
def fsDemoScaler : TrainScaler :=
  { mean := [10, 20, 30], var := [1, 4, 9], scale := [1, 2, 3], nFeaturesIn := 3 }

end Celltypist

namespace Celltypist

/-- C1 counterexample: after `Classifier.celltype` returns on `mutationDemoState`,
the loaded model's classifier feature list, weight matrix and `n_features_in_` all
differ from their values before the call — the model is mutated in place
(classifier.py:258-260), refuting the no-side-effect claim. -/
theorem celltype_mutates_classifier_features :
    (Classifier.celltype mutationDemoState).model.classifier.features ≠
      mutationDemoState.model.classifier.features ∧
    (Classifier.celltype mutationDemoState).model.classifier.coef ≠
      mutationDemoState.model.classifier.coef ∧
    (Classifier.celltype mutationDemoState).model.classifier.nFeaturesIn ≠
      mutationDemoState.model.classifier.nFeaturesIn := by
  decide

/-- C1 amended: `Classifier.celltype` leaves the scaler's mean/scale (and the
classifier's intercept and class list) untouched, but overwrites the classifier's
feature list, weight matrix and `n_features_in_` with the aligned-subset versions. -/
theorem celltype_scaler_unchanged_classifier_overwritten (s : ClassifierState) :
    (Classifier.celltype s).model.scaler = s.model.scaler ∧
    (Classifier.celltype s).model.classifier.intercept = s.model.classifier.intercept ∧
    (Classifier.celltype s).model.classifier.classes = s.model.classifier.classes ∧
    (Classifier.celltype s).model.classifier.features =
      sel s.model.classifier.features ""
        (lrIdx s.model.classifier.features
          (sel s.indataGenes "" (isinIdx s.indataGenes s.model.classifier.features))) ∧
    (Classifier.celltype s).model.classifier.coef =
      colSelect s.model.classifier.coef
        (lrIdx s.model.classifier.features
          (sel s.indataGenes "" (isinIdx s.indataGenes s.model.classifier.features))) ∧
    (Classifier.celltype s).model.classifier.nFeaturesIn =
      (lrIdx s.model.classifier.features
        (sel s.indataGenes "" (isinIdx s.indataGenes s.model.classifier.features))).length :=
  ⟨rfl, rfl, rfl, rfl, rfl, rfl⟩

/-- C2 counterexample: on `emptyIntersectionState` (model and input gene lists
disjoint) `Classifier.celltype` raises nothing: it runs to completion and returns a
state restricted to zero features, rather than failing with a
`FeatureMismatchError` (no such check exists in classifier.py:243-260). -/
theorem celltype_empty_intersection_proceeds :
    Classifier.celltype emptyIntersectionState =
      { indata := [[]]
        indataGenes := []
        model :=
          { classifier :=
              { features := [], coef := [[]], intercept := [0]
                classes := ["A"], nFeaturesIn := 0 }
            scaler := { mean := [0], scale := [1] } } } := by
  decide

/-- C2 amended: when the model/input gene intersection is empty, feature alignment
does not fail; it proceeds with an empty feature index, restricting the model and
the data to zero features. -/
theorem celltype_empty_intersection_zero_features (s : ClassifierState)
    (h : ∀ g ∈ s.indataGenes, g ∉ s.model.classifier.features) :
    (Classifier.celltype s).model.classifier.nFeaturesIn = 0 ∧
    (Classifier.celltype s).model.classifier.features = [] ∧
    (Classifier.celltype s).indataGenes = [] ∧
    (Classifier.celltype s).indata = s.indata.map (fun _ => []) := by
  have hidx : isinIdx s.indataGenes s.model.classifier.features = [] := by
    rw [isinIdx, List.filter_eq_nil_iff]
    intro i hi
    simp only [decide_eq_true_eq]
    have hlt : i < s.indataGenes.length := List.mem_range.mp hi
    rw [List.getD_eq_getElem _ _ hlt]
    exact h _ (List.getElem_mem hlt)
  refine ⟨?_, ?_, ?_, ?_⟩ <;>
    simp [Classifier.celltype, hidx, sel, lrIdx, colSelect, matSub, matDiv, matClipHi]

/-- Witness for `celltype_empty_intersection_zero_features` at
`emptyIntersectionState`. -/
theorem celltype_empty_intersection_zero_features_witness :
    (∀ g ∈ emptyIntersectionState.indataGenes,
        g ∉ emptyIntersectionState.model.classifier.features) ∧
    (Classifier.celltype emptyIntersectionState).model.classifier.nFeaturesIn = 0 ∧
    (Classifier.celltype emptyIntersectionState).model.classifier.features = [] ∧
    (Classifier.celltype emptyIntersectionState).indataGenes = [] ∧
    (Classifier.celltype emptyIntersectionState).indata =
      emptyIntersectionState.indata.map (fun _ => []) :=
  ⟨by decide, celltype_empty_intersection_zero_features emptyIntersectionState (by decide)⟩

/-- C9 counterexample: `negativeScaleState` has a trained scale entry `-1 ≤ 0`, yet
`Classifier.celltype` performs no validation of the scale vector and completes the
standardization normally (no `InvalidModelError`): the single entry becomes
`(5 - 0) / (-1) = -5`, which is also below every lower bound (no lower clip). -/
theorem celltype_no_scale_validation :
    negativeScaleState.model.scaler.scale.getD 0 0 ≤ 0 ∧
    Classifier.celltype negativeScaleState =
      { indata := [[-5]]
        indataGenes := ["g1"]
        model :=
          { classifier :=
              { features := ["g1"], coef := [[1]], intercept := [0]
                classes := ["A"], nFeaturesIn := 1 }
            scaler := { mean := [0], scale := [-1] } } } := by
  refine ⟨by norm_num [negativeScaleState], ?_⟩
  have h1 : isinIdx negativeScaleState.indataGenes
      negativeScaleState.model.classifier.features = [0] := by decide
  simp only [Classifier.celltype, h1]
  norm_num [negativeScaleState, sel, lrIdx, featurePos, matClipHi, matDiv, matSub, colSelect]

/-! ### Helper lemmas on list indexing -/

theorem getD_map_of_lt {α β : Type} (f : α → β) (l : List α) (d : α) (d2 : β) (i : Nat)
    (h : i < l.length) : (l.map f).getD i d2 = f (l.getD i d) := by
  rw [List.getD_eq_getElem _ _ (by simpa using h), List.getElem_map,
    List.getD_eq_getElem _ _ h]

theorem getD_zipWith_of_lt (f : ℚ → ℚ → ℚ) (xs ys : List ℚ) (j : Nat)
    (hx : j < xs.length) (hy : j < ys.length) :
    (List.zipWith f xs ys).getD j 0 = f (xs.getD j 0) (ys.getD j 0) := by
  have hz : j < (List.zipWith f xs ys).length := by
    rw [List.length_zipWith]; exact lt_min hx hy
  rw [List.getD_eq_getElem _ _ hz, List.getElem_zipWith,
    List.getD_eq_getElem _ _ hx, List.getD_eq_getElem _ _ hy]

theorem clip_eq_min (q c : ℚ) : (if c < q then c else q) = min q c := by
  rcases le_or_lt q c with h | h
  · rw [if_neg (not_lt.mpr h), min_eq_left h]
  · rw [if_pos h, min_eq_right h.le]

theorem scaleRow_entry (row v w : List ℚ) (j : Nat)
    (hr : j < row.length) (hv : j < v.length) (hw : j < w.length) :
    ((List.zipWith (fun a b => a / b) (List.zipWith (fun a b => a - b) row v) w).map
        (fun x => if 10 < x then 10 else x)).getD j 0 =
      min ((row.getD j 0 - v.getD j 0) / w.getD j 0) 10 := by
  have h1 : j < (List.zipWith (fun a b => a - b) row v).length := by
    rw [List.length_zipWith]; exact lt_min hr hv
  rw [getD_map_of_lt _ _ 0 _ _ (by rw [List.length_zipWith]; exact lt_min h1 hw),
    getD_zipWith_of_lt _ _ _ _ h1 hw, getD_zipWith_of_lt _ _ _ _ hr hv, clip_eq_min]

theorem scaleMatrix_entry (m : List (List ℚ)) (v w : List ℚ) (i j : Nat)
    (hi : i < m.length) (hr : j < (m.getD i []).length) (hv : j < v.length)
    (hw : j < w.length) :
    ((matClipHi (matDiv (matSub m v) w) 10).getD i []).getD j 0 =
      min (((m.getD i []).getD j 0 - v.getD j 0) / w.getD j 0) 10 := by
  rw [matSub, matDiv, matClipHi, List.map_map, List.map_map,
    getD_map_of_lt _ _ [] _ _ hi]
  exact scaleRow_entry _ _ _ _ hr hv hw

/-- C9 amended: the standardization step of `Classifier.celltype` performs no
validation of the trained scale vector (see `celltype_no_scale_validation`); it
computes `Z = (X - mean) / scale` elementwise over the aligned features and clips
each value to the upper bound 10 — `min(z, 10)` — with no lower clip.  The
hypothesis `hw` marks the domain on which the exact rational model coincides with
the floating-point code (numpy produces inf/nan on a zero scale instead of
raising). -/
theorem celltype_standardization_formula (s : ClassifierState) (i j : Nat)
    (hi : i < s.indata.length)
    (hj : j < (isinIdx s.indataGenes s.model.classifier.features).length)
    (hw : (sel s.model.scaler.scale 0
        (lrIdx s.model.classifier.features
          (sel s.indataGenes "" (isinIdx s.indataGenes s.model.classifier.features)))).getD j 0
        ≠ 0) :
    ((Classifier.celltype s).indata.getD i []).getD j 0 =
      min
        (((sel (s.indata.getD i []) 0 (isinIdx s.indataGenes s.model.classifier.features)).getD j 0 -
            (sel s.model.scaler.mean 0
              (lrIdx s.model.classifier.features
                (sel s.indataGenes "" (isinIdx s.indataGenes s.model.classifier.features)))).getD j 0) /
          (sel s.model.scaler.scale 0
            (lrIdx s.model.classifier.features
              (sel s.indataGenes "" (isinIdx s.indataGenes s.model.classifier.features)))).getD j 0)
        10 := by
  have hlrlen :
      (lrIdx s.model.classifier.features
        (sel s.indataGenes "" (isinIdx s.indataGenes s.model.classifier.features))).length =
      (isinIdx s.indataGenes s.model.classifier.features).length := by
    rw [lrIdx, List.length_map, sel, List.length_map]
  have hcol : (colSelect s.indata (isinIdx s.indataGenes s.model.classifier.features)).getD i [] =
      sel (s.indata.getD i []) 0 (isinIdx s.indataGenes s.model.classifier.features) := by
    rw [colSelect, getD_map_of_lt _ _ [] _ _ hi]
  have hmain :
      (Classifier.celltype s).indata =
        matClipHi
          (matDiv
            (matSub (colSelect s.indata (isinIdx s.indataGenes s.model.classifier.features))
              (sel s.model.scaler.mean 0
                (lrIdx s.model.classifier.features
                  (sel s.indataGenes "" (isinIdx s.indataGenes s.model.classifier.features)))))
            (sel s.model.scaler.scale 0
              (lrIdx s.model.classifier.features
                (sel s.indataGenes "" (isinIdx s.indataGenes s.model.classifier.features)))))
          10 := rfl
  rw [hmain, scaleMatrix_entry _ _ _ i j
      (by rw [colSelect, List.length_map]; exact hi)
      (by rw [hcol, sel, List.length_map]; exact hj)
      (by rw [sel, List.length_map, hlrlen]; exact hj)
      (by rw [sel, List.length_map, hlrlen]; exact hj), hcol]

/-- Witness for `celltype_standardization_formula` at `mutationDemoState`,
entry (0,0): the aligned value 5 standardizes to `(5 - 1) / 1 = 4 = min 4 10`. -/
theorem celltype_standardization_formula_witness :
    0 < mutationDemoState.indata.length ∧
    0 < (isinIdx mutationDemoState.indataGenes
          mutationDemoState.model.classifier.features).length ∧
    (sel mutationDemoState.model.scaler.scale 0
        (lrIdx mutationDemoState.model.classifier.features
          (sel mutationDemoState.indataGenes ""
            (isinIdx mutationDemoState.indataGenes
              mutationDemoState.model.classifier.features)))).getD 0 0 ≠ 0 ∧
    ((Classifier.celltype mutationDemoState).indata.getD 0 []).getD 0 0 =
      min
        (((sel (mutationDemoState.indata.getD 0 []) 0
              (isinIdx mutationDemoState.indataGenes
                mutationDemoState.model.classifier.features)).getD 0 0 -
            (sel mutationDemoState.model.scaler.mean 0
              (lrIdx mutationDemoState.model.classifier.features
                (sel mutationDemoState.indataGenes ""
                  (isinIdx mutationDemoState.indataGenes
                    mutationDemoState.model.classifier.features)))).getD 0 0) /
          (sel mutationDemoState.model.scaler.scale 0
            (lrIdx mutationDemoState.model.classifier.features
              (sel mutationDemoState.indataGenes ""
                (isinIdx mutationDemoState.indataGenes
                  mutationDemoState.model.classifier.features)))).getD 0 0)
        10 :=
  ⟨by decide, by decide, by decide,
    celltype_standardization_formula mutationDemoState 0 0 (by decide) (by decide) (by decide)⟩

/-! ### Feature-selection claims -/

theorem nodup_argsortDesc (row : List ℚ) : (argsortDesc row).Nodup :=
  ((List.perm_insertionSort _ _).nodup_iff).mpr (List.nodup_range _)

theorem mem_argsortDesc {row : List ℚ} {i : Nat} :
    i ∈ argsortDesc row ↔ i < row.length := by
  rw [argsortDesc, List.mem_insertionSort, List.mem_range]

theorem length_argsortDesc (row : List ℚ) : (argsortDesc row).length = row.length := by
  rw [argsortDesc, List.length_insertionSort, List.length_range]

theorem nodup_topKIdx (row : List ℚ) (k : Nat) : (topKIdx row k).Nodup :=
  List.Nodup.sublist (List.take_sublist _ _) (nodup_argsortDesc row)

theorem mem_topKIdx_lt {row : List ℚ} {k i : Nat} (h : i ∈ topKIdx row k) :
    i < row.length :=
  mem_argsortDesc.mp (List.mem_of_mem_take h)

theorem length_topKIdx (row : List ℚ) (k : Nat) (h : k ≤ row.length) :
    (topKIdx row k).length = k := by
  rw [topKIdx, List.length_take, length_argsortDesc, min_eq_left h]

theorem topKIdx_top {row : List ℚ} {k i j : Nat} (hi : i ∈ topKIdx row k)
    (hj : j < row.length) (hjn : j ∉ topKIdx row k) :
    row.getD j 0 ≤ row.getD i 0 := by
  have hsort : List.Sorted (rankGE row) (argsortDesc row) :=
    List.sorted_insertionSort _ _
  have hjd : j ∈ (argsortDesc row).drop k := by
    have hja : j ∈ (argsortDesc row).take k ++ (argsortDesc row).drop k := by
      rw [List.take_append_drop]; exact mem_argsortDesc.mpr hj
    rcases List.mem_append.mp hja with hcase | hcase
    · exact absurd hcase hjn
    · exact hcase
  rcases hsort.rel_of_mem_take_of_mem_drop hi hjd with h | ⟨h, _⟩
  · exact h.le
  · exact h.ge

theorem mem_selectedGeneIndex {coef : List (List ℚ)} {k x : Nat} :
    x ∈ selectedGeneIndex coef k ↔ ∃ row ∈ coef, x ∈ topKIdx (absRow row) k := by
  rw [selectedGeneIndex, npUnique, List.mem_insertionSort, List.mem_dedup,
    List.mem_flatten]
  constructor
  · rintro ⟨l, hl, hx⟩
    rcases List.mem_map.mp hl with ⟨row, hrow, rfl⟩
    exact ⟨row, hrow, hx⟩
  · rintro ⟨row, hrow, hx⟩
    exact ⟨topKIdx (absRow row) k, List.mem_map_of_mem _ hrow, hx⟩

theorem nodup_selectedGeneIndex (coef : List (List ℚ)) (k : Nat) :
    (selectedGeneIndex coef k).Nodup :=
  ((List.perm_insertionSort _ _).nodup_iff).mpr (List.nodup_dedup _)

/-- C3 counterexample: on `fsDemoCoef` (2 classes × 3 genes) with `top_genes = 1`,
the code keeps genes `g0` and `g2` (the per-class top-1 indices, unioned), which is
neither "exactly top-K" (2 ≠ 1 genes survive) nor the mean-absolute-weight ranking
of the spec, which would keep `g1` (mean |w| = 2 vs 1.5 for the others). -/
theorem featureSelection_not_mean_abs_topK :
    featureSelectStage fsDemoCoef fsDemoGenes fsDemoIndata fsDemoScaler 1 =
      .ok (["g0", "g2"], [[1, 3], [4, 6]],
        { mean := [10, 30], var := [1, 9], scale := [1, 3], nFeaturesIn := 2 },
        [0, 2]) ∧
    specMeanAbsTopK fsDemoCoef fsDemoGenes.length 1 = [1] ∧
    sel fsDemoGenes "" (specMeanAbsTopK fsDemoCoef fsDemoGenes.length 1) = ["g1"] ∧
    (["g0", "g2"] : List String) ≠ ["g1"] ∧
    (["g0", "g2"] : List String).length ≠ 1 := by
  have hspec : specMeanAbsTopK fsDemoCoef fsDemoGenes.length 1 = [1] := by
    have hr : List.range fsDemoGenes.length = [0, 1, 2] := by decide
    rw [specMeanAbsTopK, hr]
    norm_num [fsDemoCoef, topKIdx, argsortDesc, rankGE, List.insertionSort,
      List.orderedInsert]
  refine ⟨rfl, hspec, ?_, by decide, by decide⟩
  rw [hspec]
  decide

/-- C3 amended: when feature selection runs (it requires
`top_genes < len(genes)`, else it raises), the kept set `S` is the ascending,
deduplicated union over classes of each class's `top_genes` largest-`|coef|`
feature indices — per class exactly `top_genes` indices, each genuinely top within
its class — so `S` holds at least `top_genes` features (not exactly `top_genes` in
general), and the scaler's mean/var/scale and the gene list are restricted to `S`
with the classifier refit on the restricted matrix. -/
theorem featureSelection_per_class_union (coef : List (List ℚ)) (genes : List String)
    (indata : List (List ℚ)) (scaler : TrainScaler) (topGenes : Nat)
    (hguard : topGenes < genes.length)
    (hrows : ∀ row ∈ coef, row.length = genes.length) :
    ∃ S : List Nat,
      featureSelectStage coef genes indata scaler topGenes =
        .ok (sel genes "" S, colSelect indata S,
          { mean := sel scaler.mean 0 S, var := sel scaler.var 0 S,
            scale := sel scaler.scale 0 S, nFeaturesIn := S.length }, S) ∧
      S.Nodup ∧ S.Sorted (fun a b => a ≤ b) ∧
      (∀ x ∈ S, ∃ row ∈ coef, x ∈ topKIdx (absRow row) topGenes) ∧
      (∀ row ∈ coef, ∀ x ∈ topKIdx (absRow row) topGenes, x ∈ S) ∧
      (∀ row ∈ coef, (topKIdx (absRow row) topGenes).length = topGenes) ∧
      (∀ row ∈ coef, ∀ i ∈ topKIdx (absRow row) topGenes, ∀ j, j < row.length →
        j ∉ topKIdx (absRow row) topGenes → |row.getD j 0| ≤ |row.getD i 0|) ∧
      (coef ≠ [] → topGenes ≤ S.length) := by
  refine ⟨selectedGeneIndex coef topGenes, ?_, nodup_selectedGeneIndex _ _,
    List.sorted_insertionSort _ _, fun x hx => mem_selectedGeneIndex.mp hx,
    fun row hrow x hx => mem_selectedGeneIndex.mpr ⟨row, hrow, hx⟩, ?_, ?_, ?_⟩
  · rw [featureSelectStage, if_neg (by omega)]
  · intro row hrow
    exact length_topKIdx _ _ (by rw [absRow, List.length_map, hrows row hrow]; omega)
  · intro row hrow i hi j hj hjn
    have hjlen : j < (absRow row).length := by rwa [absRow, List.length_map]
    have hilen : i < row.length := by
      have := mem_topKIdx_lt hi
      rwa [absRow, List.length_map] at this
    have h := topKIdx_top hi hjlen hjn
    rwa [absRow, getD_map_of_lt _ _ 0 _ _ hj, getD_map_of_lt _ _ 0 _ _ hilen] at h
  · intro hne
    obtain ⟨row, hrow⟩ : ∃ row, row ∈ coef := by
      cases coef with
      | nil => exact absurd rfl hne
      | cons a t => exact ⟨a, List.mem_cons_self a t⟩
    have hsub : topKIdx (absRow row) topGenes ⊆ selectedGeneIndex coef topGenes :=
      fun x hx => mem_selectedGeneIndex.mpr ⟨row, hrow, hx⟩
    have hlen2 : (topKIdx (absRow row) topGenes).length = topGenes :=
      length_topKIdx _ _ (by rw [absRow, List.length_map, hrows row hrow]; omega)
    calc topGenes = (topKIdx (absRow row) topGenes).length := hlen2.symm
      _ ≤ (selectedGeneIndex coef topGenes).length :=
          ((nodup_topKIdx _ _).subperm hsub).length_le

/-- Witness for `featureSelection_per_class_union` at the demo inputs with
`top_genes = 1`. -/
theorem featureSelection_per_class_union_witness :
    1 < fsDemoGenes.length ∧
    (∀ row ∈ fsDemoCoef, row.length = fsDemoGenes.length) ∧
    ∃ S : List Nat,
      featureSelectStage fsDemoCoef fsDemoGenes fsDemoIndata fsDemoScaler 1 =
        .ok (sel fsDemoGenes "" S, colSelect fsDemoIndata S,
          { mean := sel fsDemoScaler.mean 0 S, var := sel fsDemoScaler.var 0 S,
            scale := sel fsDemoScaler.scale 0 S, nFeaturesIn := S.length }, S) ∧
      S.Nodup ∧ S.Sorted (fun a b => a ≤ b) ∧
      (∀ x ∈ S, ∃ row ∈ fsDemoCoef, x ∈ topKIdx (absRow row) 1) ∧
      (∀ row ∈ fsDemoCoef, ∀ x ∈ topKIdx (absRow row) 1, x ∈ S) ∧
      (∀ row ∈ fsDemoCoef, (topKIdx (absRow row) 1).length = 1) ∧
      (∀ row ∈ fsDemoCoef, ∀ i ∈ topKIdx (absRow row) 1, ∀ j, j < row.length →
        j ∉ topKIdx (absRow row) 1 → |row.getD j 0| ≤ |row.getD i 0|) ∧
      (fsDemoCoef ≠ [] → 1 ≤ S.length) :=
  ⟨by decide, by decide,
    featureSelection_per_class_union fsDemoCoef fsDemoGenes fsDemoIndata fsDemoScaler 1
      (by decide) (by decide)⟩

/-! ### Mini-batch fitting claims -/

/-- C5: mini-batch fitting never completes.  At the failing input (3 cells,
`batch_size = 2`, `mini_batch = True`, default `batch_number = 100`,
`epochs = 10`) the epoch loop's first statement evaluates the unbound name
`shuffle` (train.py:114, no import anywhere in the file), so `_SGDClassifier`
raises `NameError` with no fit performed — the batch starts had been computed as
`min(batch_number, ceil(cells / batch_size)) = 2` offsets, but no batch is ever
swept. -/
theorem miniBatch_fit_raises_nameError_shuffle :
    SGDClassifierFit 3 true 100 2 10 =
      (some (.nameError "shuffle"), { fullFitDone := false, pfitSteps := 0 }) ∧
    (miniBatchStarts 3 2 100).length = min 100 ((3 + 2 - 1) / 2) := by
  decide

/-- C6: in mini-batch mode, whenever `batch_size` exceeds the number of available
cells, `_SGDClassifier` raises the insufficient-data `ValueError`
(train.py:108-109) before entering the batch loop: the classifier has received no
`partial_fit` step (`pfitSteps = 0`) and no full fit when the error propagates. -/
theorem miniBatch_insufficient_cells_error_before_fit
    (noCells batchNumber batchSize epochs : Nat) (h : noCells < batchSize) :
    SGDClassifierFit noCells true batchNumber batchSize epochs =
      (some (.valueError "Number of cells is fewer than the batch size"),
        { fullFitDone := false, pfitSteps := 0 }) := by
  simp [SGDClassifierFit, Nat.le_of_lt h]

/-- Witness for `miniBatch_insufficient_cells_error_before_fit`: 2 cells,
batch size 1000. -/
theorem miniBatch_insufficient_cells_error_before_fit_witness :
    2 < 1000 ∧
    SGDClassifierFit 2 true 100 1000 10 =
      (some (.valueError "Number of cells is fewer than the batch size"),
        { fullFitDone := false, pfitSteps := 0 }) :=
  ⟨by decide, miniBatch_insufficient_cells_error_before_fit 2 100 1000 10 (by decide)⟩

/-! ### Loading-time normalization check claims -/

/-- C7 counterexample: a matrix whose first row is exactly normalized
(`expm1(log 10001) = 10000`) but whose second row sums to `0`, violating the
±1-around-10000 bound, is *not* rejected by the loading-time check — only row 0
is consulted (classifier.py:222, train.py:144). -/
theorem normalizationCheck_accepts_bad_second_row :
    1 < |rowExpm1Sum [(0 : ℝ)] - 10000| ∧
    ¬ normalizationCheckRejects [[Real.log 10001], [(0 : ℝ)]] := by
  have h0 : rowExpm1Sum [(0 : ℝ)] = 0 := by
    simp [rowExpm1Sum, npExpm1]
  have h1 : rowExpm1Sum [Real.log 10001] = 10000 := by
    rw [rowExpm1Sum]
    simp only [List.map_cons, List.map_nil, List.sum_cons, List.sum_nil, npExpm1]
    rw [Real.exp_log (by norm_num)]
    norm_num
  constructor
  · rw [h0]; rw [abs_of_nonpos (by norm_num)]; norm_num
  · rw [normalizationCheckRejects]
    show ¬ 1 < |rowExpm1Sum [Real.log 10001] - 10000|
    rw [h1]
    norm_num

/-- C7 amended: the normalization check consults only the first row of the
expression matrix — matrices with the same first row are treated identically, and
a matrix is rejected iff its first row's `expm1`-sum lies outside `10000 ± 1`. -/
theorem normalizationCheck_first_row_only (m1 m2 : List (List ℝ))
    (h : m1.headD [] = m2.headD []) :
    (normalizationCheckRejects m1 ↔ normalizationCheckRejects m2) ∧
    ∀ (r : List ℝ) (rest : List (List ℝ)),
      (normalizationCheckRejects (r :: rest) ↔ 1 < |rowExpm1Sum r - 10000|) := by
  constructor
  · unfold normalizationCheckRejects
    rw [h]
  · intro r rest
    exact Iff.rfl

/-- Witness for `normalizationCheck_first_row_only`: `[[0]]` and `[[0], [1]]`
share their first row. -/
theorem normalizationCheck_first_row_only_witness :
    ([[(0 : ℝ)]].headD [] = [[(0 : ℝ)], [(1 : ℝ)]].headD []) ∧
    ((normalizationCheckRejects [[(0 : ℝ)]] ↔
        normalizationCheckRejects [[(0 : ℝ)], [(1 : ℝ)]]) ∧
      ∀ (r : List ℝ) (rest : List (List ℝ)),
        (normalizationCheckRejects (r :: rest) ↔ 1 < |rowExpm1Sum r - 10000|)) :=
  ⟨rfl, normalizationCheck_first_row_only _ _ rfl⟩

/-! ### Majority-vote consensus claims -/

theorem foldl_max_mem (f : String → Nat) :
    ∀ (rs : List String) (r : String),
      rs.foldl (fun best x => if f best < f x then x else best) r ∈ r :: rs := by
  intro rs
  induction rs with
  | nil => intro r; simp
  | cons a t ih =>
    intro r
    simp only [List.foldl_cons]
    have h := ih (if f r < f a then a else r)
    rcases List.mem_cons.mp h with heq | hmem
    · rw [heq]
      by_cases hc : f r < f a
      · rw [if_pos hc]; exact List.mem_cons_of_mem _ (List.mem_cons_self _ _)
      · rw [if_neg hc]; exact List.mem_cons_self _ _
    · exact List.mem_cons_of_mem _ (List.mem_cons_of_mem _ hmem)

theorem foldl_max_ge (f : String → Nat) :
    ∀ (rs : List String) (r : String),
      f r ≤ f (rs.foldl (fun best x => if f best < f x then x else best) r) ∧
      ∀ x ∈ rs, f x ≤ f (rs.foldl (fun best x => if f best < f x then x else best) r) := by
  intro rs
  induction rs with
  | nil => intro r; exact ⟨le_refl _, by simp⟩
  | cons a t ih =>
    intro r
    simp only [List.foldl_cons]
    obtain ⟨h1, h2⟩ := ih (if f r < f a then a else r)
    have hstep : f a ≤ f (if f r < f a then a else r) ∧
        f r ≤ f (if f r < f a then a else r) := by
      by_cases hc : f r < f a
      · rw [if_pos hc]; exact ⟨le_refl _, hc.le⟩
      · rw [if_neg hc]; exact ⟨not_lt.mp hc, le_refl _⟩
    refine ⟨le_trans hstep.2 h1, ?_⟩
    intro x hx
    rcases List.mem_cons.mp hx with rfl | hx2
    · exact le_trans hstep.1 h1
    · exact h2 x hx2

theorem foldl_first_max_le (f : String → Nat) :
    ∀ (rs : List String) (r : String), List.Sorted (fun a b => a ≤ b) (r :: rs) →
      ∀ x ∈ r :: rs,
        f x = f (rs.foldl (fun best y => if f best < f y then y else best) r) →
        rs.foldl (fun best y => if f best < f y then y else best) r ≤ x := by
  intro rs
  induction rs with
  | nil =>
    intro r _ x hx _
    simp only [List.foldl_nil]
    rcases List.mem_singleton.mp hx with rfl
    exact le_refl x
  | cons a t ih =>
    intro r hsort x hx hfx
    simp only [List.foldl_cons] at hfx ⊢
    have hsort' : List.Sorted (fun a b => a ≤ b) ((if f r < f a then a else r) :: t) := by
      by_cases hc : f r < f a
      · rw [if_pos hc]; exact hsort.of_cons
      · rw [if_neg hc]
        rw [List.sorted_cons] at hsort ⊢
        exact ⟨fun b hb => hsort.1 b (List.mem_cons_of_mem _ hb),
          (List.sorted_cons.mp hsort.2).2⟩
    obtain ⟨hge1, _⟩ := foldl_max_ge f t (if f r < f a then a else r)
    rcases List.mem_cons.mp hx with heq | hx2
    · rw [heq] at hfx ⊢
      by_cases hc : f r < f a
      · exfalso
        rw [if_pos hc] at hge1 hfx
        omega
      · rw [if_neg hc] at hsort' hfx ⊢
        exact ih r hsort' r (List.mem_cons_self _ _) hfx
    · rcases List.mem_cons.mp hx2 with heq2 | hx3
      · rw [heq2] at hfx ⊢
        by_cases hc : f r < f a
        · rw [if_pos hc] at hsort' hfx ⊢
          exact ih a hsort' a (List.mem_cons_self _ _) hfx
        · rw [if_neg hc] at hsort' hfx hge1 ⊢
          have hra : f a ≤ f r := not_lt.mp hc
          have hreq : f r =
              f (t.foldl (fun best y => if f best < f y then y else best) r) := by
            omega
          have hfold := ih r hsort' r (List.mem_cons_self _ _) hreq
          refine le_trans hfold ?_
          exact (List.sorted_cons.mp hsort).1 a (List.mem_cons_self _ _)
      · exact ih (if f r < f a then a else r) hsort' x (List.mem_cons_of_mem _ hx3) hfx

theorem sortedUnique_sorted (labels : List String) :
    List.Sorted (fun a b => a ≤ b) (sortedUnique labels) :=
  List.sorted_insertionSort _ _

theorem mem_sortedUnique {labels : List String} {l : String} :
    l ∈ sortedUnique labels ↔ l ∈ labels := by
  rw [sortedUnique, List.mem_insertionSort, List.mem_dedup]

/-- The winner `votes.idxmax()` picks for a cluster is a label of the data, has
maximal count within the cluster, and is the lexicographically least among the
tied maxima (pandas `idxmax` returns the first occurrence of the maximum over the
lexicographically sorted crosstab index). -/
theorem clusterWinner_spec (labels clusters : List String) (c : String)
    (hne : labels ≠ []) :
    clusterWinner labels clusters c ∈ labels ∧
    (∀ l ∈ labels, countLC labels clusters l c ≤
      countLC labels clusters (clusterWinner labels clusters c) c) ∧
    (∀ l ∈ labels, countLC labels clusters l c =
      countLC labels clusters (clusterWinner labels clusters c) c →
      clusterWinner labels clusters c ≤ l) := by
  obtain ⟨r, rs, hsu⟩ : ∃ r rs, sortedUnique labels = r :: rs := by
    cases h : sortedUnique labels with
    | nil =>
      exfalso
      obtain ⟨a, t, rfl⟩ : ∃ a t, labels = a :: t := by
        cases labels with
        | nil => exact absurd rfl hne
        | cons a t => exact ⟨a, t, rfl⟩
      have : a ∈ sortedUnique (a :: t) := mem_sortedUnique.mpr (List.mem_cons_self _ _)
      rw [h] at this
      exact absurd this (List.not_mem_nil a)
    | cons r rs => exact ⟨r, rs, rfl⟩
  have hwin : clusterWinner labels clusters c =
      rs.foldl (fun best y =>
        if countLC labels clusters best c < countLC labels clusters y c then y
        else best) r := by
    rw [clusterWinner, hsu, idxmaxFirst]
  have hsort : List.Sorted (fun a b => a ≤ b) (r :: rs) := by
    rw [← hsu]; exact sortedUnique_sorted labels
  refine ⟨?_, ?_, ?_⟩
  · rw [hwin]
    have := foldl_max_mem (fun l => countLC labels clusters l c) rs r
    rw [← hsu] at this
    exact mem_sortedUnique.mp this
  · intro l hl
    have hmem : l ∈ r :: rs := by rw [← hsu]; exact mem_sortedUnique.mpr hl
    obtain ⟨h1, h2⟩ := foldl_max_ge (fun l => countLC labels clusters l c) rs r
    rw [hwin]
    rcases List.mem_cons.mp hmem with rfl | hmem2
    · exact h1
    · exact h2 l hmem2
  · intro l hl heq
    have hmem : l ∈ r :: rs := by rw [← hsu]; exact mem_sortedUnique.mpr hl
    rw [hwin]
    exact foldl_first_max_le (fun l => countLC labels clusters l c) rs r hsort l hmem
      (by rw [hwin] at heq; exact heq)

/-- C4: under `Classifier.majority_vote`, every cell receives as consensus label
the winner of its own cluster: a label attaining the maximal count among the
cluster's predicted labels (it occurs in the cluster at least once), and, when
several labels tie for the maximum, the lexicographically least of them —
deterministically (so `[A,A,A,B]` in one cluster yields `A` for all four cells,
and a tied `[A,A,B,B]` cluster also yields `A`). -/
theorem majority_vote_max_count_lex_tiebreak {α : Type}
    (predictions : AnnotationResult α) (oc : List String) (i : Nat)
    (hlen : predictions.labelsCol.length = oc.length) (hi : i < oc.length) :
    ∃ mj : List String,
      Classifier.majority_vote predictions oc = .ok
        { predictions with
          predictedLabels :=
            { index := predictions.predictedLabels.index
              cols := predictions.predictedLabels.cols ++
                [("over_clustering", oc), ("majority_voting", mj)] } } ∧
      mj.getD i "" = clusterWinner predictions.labelsCol oc (oc.getD i "") ∧
      1 ≤ countLC predictions.labelsCol oc
          (clusterWinner predictions.labelsCol oc (oc.getD i "")) (oc.getD i "") ∧
      (∀ l ∈ predictions.labelsCol,
        countLC predictions.labelsCol oc l (oc.getD i "") ≤
          countLC predictions.labelsCol oc
            (clusterWinner predictions.labelsCol oc (oc.getD i "")) (oc.getD i "")) ∧
      (∀ l ∈ predictions.labelsCol,
        countLC predictions.labelsCol oc l (oc.getD i "") =
          countLC predictions.labelsCol oc
            (clusterWinner predictions.labelsCol oc (oc.getD i "")) (oc.getD i "") →
        clusterWinner predictions.labelsCol oc (oc.getD i "") ≤ l) := by
  have hne : predictions.labelsCol ≠ [] := by
    intro hnil
    rw [hnil] at hlen
    simp only [List.length_nil] at hlen
    omega
  obtain ⟨hwmem, hwmax, hwtie⟩ :=
    clusterWinner_spec predictions.labelsCol oc (oc.getD i "") hne
  refine ⟨oc.map (clusterWinner predictions.labelsCol oc), ?_, ?_, ?_, hwmax, hwtie⟩
  · simp [Classifier.majority_vote, hlen]
  · exact getD_map_of_lt _ _ "" _ _ hi
  · have hil : i < predictions.labelsCol.length := by omega
    have hpair : (predictions.labelsCol.getD i "", oc.getD i "") ∈
        predictions.labelsCol.zip oc := by
      have hz : i < (predictions.labelsCol.zip oc).length := by
        rw [List.length_zip]; omega
      have : (predictions.labelsCol.zip oc).getD i ("", "") =
          (predictions.labelsCol.getD i "", oc.getD i "") := by
        rw [List.getD_eq_getElem _ _ hz, List.getElem_zip,
          List.getD_eq_getElem _ _ hil, List.getD_eq_getElem _ _ hi]
      rw [← this, List.getD_eq_getElem _ _ hz]
      exact List.getElem_mem hz
    have hcnt : 1 ≤ countLC predictions.labelsCol oc
        (predictions.labelsCol.getD i "") (oc.getD i "") := by
      rw [countLC]
      have hmem : (predictions.labelsCol.getD i "", oc.getD i "") ∈
          (predictions.labelsCol.zip oc).filter
            (fun p => decide (p.1 = predictions.labelsCol.getD i "" ∧
              p.2 = oc.getD i "")) :=
        List.mem_filter.mpr ⟨hpair, by simp⟩
      exact List.length_pos.mpr (List.ne_nil_of_mem hmem)
    exact le_trans hcnt
      (hwmax _ (by
        rw [List.getD_eq_getElem _ _ (by omega : i < predictions.labelsCol.length)]
        exact List.getElem_mem _))

/-- Witness for `majority_vote_max_count_lex_tiebreak`: four cells predicted
`A,A,B,B` in a single tied cluster, at cell index 2 (a `B` cell). -/
theorem majority_vote_max_count_lex_tiebreak_witness :
    tiedVoteResult.labelsCol.length = ["c0", "c0", "c0", "c0"].length ∧
    2 < ["c0", "c0", "c0", "c0"].length ∧
    ∃ mj : List String,
      Classifier.majority_vote tiedVoteResult ["c0", "c0", "c0", "c0"] = .ok
        { tiedVoteResult with
          predictedLabels :=
            { index := tiedVoteResult.predictedLabels.index
              cols := tiedVoteResult.predictedLabels.cols ++
                [("over_clustering", ["c0", "c0", "c0", "c0"]),
                 ("majority_voting", mj)] } } ∧
      mj.getD 2 "" = clusterWinner tiedVoteResult.labelsCol ["c0", "c0", "c0", "c0"]
          (["c0", "c0", "c0", "c0"].getD 2 "") ∧
      1 ≤ countLC tiedVoteResult.labelsCol ["c0", "c0", "c0", "c0"]
          (clusterWinner tiedVoteResult.labelsCol ["c0", "c0", "c0", "c0"]
            (["c0", "c0", "c0", "c0"].getD 2 ""))
          (["c0", "c0", "c0", "c0"].getD 2 "") ∧
      (∀ l ∈ tiedVoteResult.labelsCol,
        countLC tiedVoteResult.labelsCol ["c0", "c0", "c0", "c0"] l
            (["c0", "c0", "c0", "c0"].getD 2 "") ≤
          countLC tiedVoteResult.labelsCol ["c0", "c0", "c0", "c0"]
            (clusterWinner tiedVoteResult.labelsCol ["c0", "c0", "c0", "c0"]
              (["c0", "c0", "c0", "c0"].getD 2 ""))
            (["c0", "c0", "c0", "c0"].getD 2 "")) ∧
      (∀ l ∈ tiedVoteResult.labelsCol,
        countLC tiedVoteResult.labelsCol ["c0", "c0", "c0", "c0"] l
            (["c0", "c0", "c0", "c0"].getD 2 "") =
          countLC tiedVoteResult.labelsCol ["c0", "c0", "c0", "c0"]
            (clusterWinner tiedVoteResult.labelsCol ["c0", "c0", "c0", "c0"]
              (["c0", "c0", "c0", "c0"].getD 2 ""))
            (["c0", "c0", "c0", "c0"].getD 2 "") →
        clusterWinner tiedVoteResult.labelsCol ["c0", "c0", "c0", "c0"]
            (["c0", "c0", "c0", "c0"].getD 2 "") ≤ l) :=
  ⟨by decide, by decide,
    majority_vote_max_count_lex_tiebreak tiedVoteResult ["c0", "c0", "c0", "c0"] 2
      (by decide) (by decide)⟩

/-- The tie-break demonstrations the spec gives: a cluster of labels `[A,A,A,B]`
votes `A`, and a perfectly tied cluster `[A,A,B,B]` also votes `A` (the
lexicographically first label). -/
theorem clusterWinner_examples :
    clusterWinner ["A", "A", "A", "B"] ["c0", "c0", "c0", "c0"] "c0" = "A" ∧
    clusterWinner ["A", "A", "B", "B"] ["c0", "c0", "c0", "c0"] "c0" = "A" := by
  have hAB : ("A" : String) ≤ "B" := by
    rw [String.le_iff_toList_le]; decide
  have hsu1 : sortedUnique ["A", "A", "A", "B"] = ["A", "B"] := by
    rw [sortedUnique,
      show (["A", "A", "A", "B"] : List String).dedup = ["A", "B"] by decide]
    simp [List.insertionSort, List.orderedInsert, hAB]
  have hsu2 : sortedUnique ["A", "A", "B", "B"] = ["A", "B"] := by
    rw [sortedUnique,
      show (["A", "A", "B", "B"] : List String).dedup = ["A", "B"] by decide]
    simp [List.insertionSort, List.orderedInsert, hAB]
  constructor
  · rw [clusterWinner, hsu1]
    show (if countLC ["A", "A", "A", "B"] ["c0", "c0", "c0", "c0"] "A" "c0" <
        countLC ["A", "A", "A", "B"] ["c0", "c0", "c0", "c0"] "B" "c0"
      then "B" else "A") = "A"
    rw [show countLC ["A", "A", "A", "B"] ["c0", "c0", "c0", "c0"] "A" "c0" = 3
        by decide,
      show countLC ["A", "A", "A", "B"] ["c0", "c0", "c0", "c0"] "B" "c0" = 1
        by decide]
    decide
  · rw [clusterWinner, hsu2]
    show (if countLC ["A", "A", "B", "B"] ["c0", "c0", "c0", "c0"] "A" "c0" <
        countLC ["A", "A", "B", "B"] ["c0", "c0", "c0", "c0"] "B" "c0"
      then "B" else "A") = "A"
    rw [show countLC ["A", "A", "B", "B"] ["c0", "c0", "c0", "c0"] "A" "c0" = 2
        by decide,
      show countLC ["A", "A", "B", "B"] ["c0", "c0", "c0", "c0"] "B" "c0" = 2
        by decide]
    decide

/-! ### Majority-vote error and frame claims -/

/-- C8: `Classifier.majority_vote` fails whenever the partition length differs
from the number of predicted labels: `pd.crosstab` raises `ValueError` (the
spec's `LengthMismatchError`) for array-like partitions of mismatched length. -/
theorem majority_vote_length_mismatch_error {α : Type}
    (predictions : AnnotationResult α) (oc : List String)
    (h : predictions.labelsCol.length ≠ oc.length) :
    Classifier.majority_vote predictions oc =
      .error (.valueError "Length of values does not match length of index") := by
  simp [Classifier.majority_vote, h]

/-- Witness for `majority_vote_length_mismatch_error`: four labels, a one-element
partition. -/
theorem majority_vote_length_mismatch_error_witness :
    tiedVoteResult.labelsCol.length ≠ ["c0"].length ∧
    Classifier.majority_vote tiedVoteResult ["c0"] =
      .error (.valueError "Length of values does not match length of index") :=
  ⟨by decide, majority_vote_length_mismatch_error tiedVoteResult ["c0"] (by decide)⟩

/-- C10: `Classifier.majority_vote` returns the very `AnnotationResult` it was
given with only `predicted_labels` replaced: that DataFrame keeps its original
cell index and gains exactly the two columns `over_clustering` and
`majority_voting` (index-aligned), while `probability_table`, `adata` and
`cell_count` are unchanged. -/
theorem majority_vote_frame {α : Type} (predictions : AnnotationResult α)
    (oc : List String) (hlen : predictions.labelsCol.length = oc.length) :
    ∃ mj : List String, mj.length = oc.length ∧
      Classifier.majority_vote predictions oc = .ok
        { predictedLabels :=
            { index := predictions.predictedLabels.index
              cols := predictions.predictedLabels.cols ++
                [("over_clustering", oc), ("majority_voting", mj)] }
          probabilityTable := predictions.probabilityTable
          cellCount := predictions.cellCount
          adata := predictions.adata } := by
  refine ⟨oc.map (clusterWinner predictions.labelsCol oc), by simp, ?_⟩
  simp [Classifier.majority_vote, hlen]

/-- Witness for `majority_vote_frame` at `majorityVoteResult` with a single
cluster. -/
theorem majority_vote_frame_witness :
    majorityVoteResult.labelsCol.length = ["c0", "c0", "c0", "c0"].length ∧
    ∃ mj : List String, mj.length = ["c0", "c0", "c0", "c0"].length ∧
      Classifier.majority_vote majorityVoteResult ["c0", "c0", "c0", "c0"] = .ok
        { predictedLabels :=
            { index := majorityVoteResult.predictedLabels.index
              cols := majorityVoteResult.predictedLabels.cols ++
                [("over_clustering", ["c0", "c0", "c0", "c0"]),
                 ("majority_voting", mj)] }
          probabilityTable := majorityVoteResult.probabilityTable
          cellCount := majorityVoteResult.cellCount
          adata := majorityVoteResult.adata } :=
  ⟨by decide, majority_vote_frame majorityVoteResult ["c0", "c0", "c0", "c0"] (by decide)⟩

end Celltypist
